import Mathlib

/-!
Shallow embedding of the taxu-js client library (`src/index.ts`).

The library is an axios-based HTTP client.  We embed:

* decoded JSON bodies as `JsValue` (JavaScript numbers are modelled as
  integers; no claim computes on fractional amounts);
* JavaScript truthiness (`truthy`) as used by the `||` fallbacks and the
  optional-chained `error.response.data?.message` access;
* the axios rejection object (`AxiosLikeError`: `response`, `request`,
  `message`) and the axios settling rule (default `validateStatus`:
  2xx resolves, any other server status rejects with `response` set,
  a connection-level failure rejects with `request` set but no
  `response`, and a failure before any network attempt rejects with
  neither);
* the `TaxuClient` class: its constructor (header/baseURL/timeout
  defaulting), `handleError`, and the four public methods, each issuing
  one `AxiosRequestConfig` through an abstract network oracle.
-/

/-- A decoded JSON / JavaScript value.  Numbers are modelled as integers. -/
inductive JsValue where
  | null : JsValue
  | undefined : JsValue
  | bool (b : Bool) : JsValue
  | num (n : Int) : JsValue
  | str (s : String) : JsValue
  | arr (elems : List JsValue) : JsValue
  | obj (fields : List (String × JsValue)) : JsValue
deriving Repr

/-- JavaScript truthiness: `null`, `undefined`, `false`, `0` and `""` are
falsy; every object and array is truthy. -/
def truthy : JsValue → Bool
  | .null => false
  | .undefined => false
  | .bool b => b
  | .num n => n != 0
  | .str s => s != ""
  | .arr _ => true
  | .obj _ => true

/-- Property access guarded by optional chaining, as in `data?.message`:
`undefined` when the receiver is `null`/`undefined` or is not an object or
lacks the field; otherwise the field's value. -/
def jsField (v : JsValue) (key : String) : JsValue :=
  match v with
  | .obj fields =>
      match fields.lookup key with
      | some w => w
      | none => .undefined
  | _ => .undefined

mutual

/-- JavaScript `String(v)` conversion, used by `new Error(message)` when the
server-provided `message` field is not itself a string. -/
def jsToString : JsValue → String
  | .null => "null"
  | .undefined => "undefined"
  | .bool b => if b then "true" else "false"
  | .num n => toString n
  | .str s => s
  | .arr elems => jsArrToString elems
  | .obj _ => "[object Object]"

/-- `Array.prototype.toString`: elements joined with commas, with
`null`/`undefined` elements rendered as the empty string. -/
def jsArrToString : List JsValue → String
  | [] => ""
  | [v] => jsElemToString v
  | v :: rest => jsElemToString v ++ "," ++ jsArrToString rest

/-- One array element under `Array.prototype.toString`. -/
def jsElemToString : JsValue → String
  | .null => ""
  | .undefined => ""
  | v => jsToString v

end

/-- `TaxuConfig`: `{ apiKey: string; baseURL?: string; timeout?: number }`. -/
structure TaxuConfig where
  apiKey : String
  baseURL : Option String := none
  timeout : Option Int := none

/-- `TaxCalculationRequest` from `src/index.ts`. -/
structure TaxCalculationRequest where
  amount : Int
  currency : String
  jurisdiction : Option String := none
  taxType : Option String := none

/-- JSON serialization of a `TaxCalculationRequest` body; optional fields
absent from the object are omitted, as `JSON.stringify` drops `undefined`. -/
def TaxCalculationRequest.toJson (r : TaxCalculationRequest) : JsValue :=
  .obj ([("amount", .num r.amount), ("currency", .str r.currency)]
    ++ (match r.jurisdiction with
        | some j => [("jurisdiction", JsValue.str j)]
        | none => [])
    ++ (match r.taxType with
        | some t => [("taxType", JsValue.str t)]
        | none => []))

/-- The server's answer as axios records it: HTTP status and decoded body. -/
structure AxiosResponse where
  status : Nat
  data : JsValue
deriving Repr

/-- The rejection object axios throws: `response` is set when the server
answered, `request` is set when the request went out, `message` is the
underlying error text. -/
structure AxiosLikeError where
  response : Option AxiosResponse
  request : Bool
  message : String
deriving Repr

/-- The fully resolved request handed to the transport: per-call url, method,
body and query params, plus the instance defaults (headers, baseURL,
timeout) merged in by axios. -/
structure AxiosRequestConfig where
  url : String
  method : String
  data : Option JsValue
  params : Option (List (String × JsValue))
  headers : List (String × String)
  baseURL : String
  timeout : Int
deriving Repr

/-- What the network does with one issued request, before axios classifies
it: the server answers with a status and body, or the request goes out and
nothing comes back, or the failure happens before any network attempt. -/
inductive RawOutcome where
  | response (status : Nat) (body : JsValue) : RawOutcome
  | noResponse : RawOutcome
  | setupFailure (msg : String) : RawOutcome
deriving Repr

/-- One settled axios call: resolved with a response, or rejected. -/
inductive SettledOutcome where
  | fulfilled (resp : AxiosResponse) : SettledOutcome
  | rejected (err : AxiosLikeError) : SettledOutcome
deriving Repr

/-- Axios's settling rule under the default `validateStatus`: a 2xx status
resolves; any other server status rejects with `response` set; no response
rejects with `request` set but no `response`; a pre-network failure rejects
with neither. -/
def settle (raw : RawOutcome) : SettledOutcome :=
  match raw with
  | .response status body =>
      if 200 ≤ status ∧ status < 300 then
        .fulfilled ⟨status, body⟩
      else
        .rejected ⟨some ⟨status, body⟩, true,
          "Request failed with status code " ++ toString status⟩
  | .noResponse =>
      .rejected ⟨none, true, "Network Error"⟩
  | .setupFailure msg =>
      .rejected ⟨none, false, msg⟩

/-- A network oracle: the outcome of each request the client could issue. -/
def Network : Type := AxiosRequestConfig → RawOutcome

/-- The `TaxuClient` instance state: the stored key and the axios instance
defaults fixed at construction. -/
structure TaxuClient where
  apiKey : String
  baseURL : String
  timeout : Int
  headers : List (String × String)
deriving Repr

/-- The default headers the constructor installs on the axios instance. -/
def defaultHeaders (apiKey : String) : List (String × String) :=
  [("Authorization", "Bearer " ++ apiKey),
   ("Content-Type", "application/json"),
   ("User-Agent", "taxu-js/0.1.0")]

/-- `new TaxuClient(config)`: stores the key and creates the axios instance
with `baseURL: config.baseURL || 'https://api.taxu.io/v1'`,
`timeout: config.timeout || 10000` and the three default headers. -/
def TaxuClient.create (config : TaxuConfig) : TaxuClient :=
  { apiKey := config.apiKey
    baseURL :=
      match config.baseURL with
      | some s => if s != "" then s else "https://api.taxu.io/v1"
      | none => "https://api.taxu.io/v1"
    timeout :=
      match config.timeout with
      | some t => if t != 0 then t else 10000
      | none => 10000
    headers := defaultHeaders config.apiKey }

/-- Argument of `createTaxuClient`: a bare API key string or a full config. -/
inductive ApiKeyOrConfig where
  | key (s : String) : ApiKeyOrConfig
  | cfg (c : TaxuConfig) : ApiKeyOrConfig

/-- `createTaxuClient(apiKeyOrConfig)`: wraps a bare string into a config
with only `apiKey` set, then constructs the client. -/
def createTaxuClient : ApiKeyOrConfig → TaxuClient
  | .key s => TaxuClient.create { apiKey := s }
  | .cfg c => TaxuClient.create c

/-- `TaxuClient.handleError`: the error-normalization rule.  `error.response`
present → the truthy server message (via `error.response.data?.message ||`)
or the `API Error: <status>` fallback; else `error.request` present → the
fixed network-error text; else `Request error: <underlying message>`. -/
def TaxuClient.handleError (error : AxiosLikeError) : String :=
  match error.response with
  | some response =>
      let message := jsField response.data "message"
      if truthy message then jsToString message
      else "API Error: " ++ toString response.status
  | none =>
      if error.request then "Network error: Unable to reach Taxu API"
      else "Request error: " ++ error.message

/-- JavaScript `String.prototype.toLowerCase` restricted to the ASCII
range, which covers the HTTP verb names the `request` method lower-cases. -/
def jsToLowerCase (s : String) : String := ⟨s.data.map Char.toLower⟩

/-- `options` of the generic `request` method. -/
structure RequestOptions where
  method : Option String := none
  data : Option JsValue := none
  params : Option (List (String × JsValue)) := none

/-- The request the generic `request(endpoint, options)` hands to axios:
destructures `{ method = 'GET', data, params }` and lower-cases the method;
headers, baseURL and timeout come from the instance defaults. -/
def TaxuClient.requestConfig (c : TaxuClient) (endpoint : String)
    (options : Option RequestOptions) : AxiosRequestConfig :=
  let opts := options.getD {}
  { url := endpoint
    method := jsToLowerCase (opts.method.getD "GET")
    data := opts.data
    params := opts.params
    headers := c.headers
    baseURL := c.baseURL
    timeout := c.timeout }

/-- The request `this.client.post(url, body)` hands to axios. -/
def TaxuClient.postConfig (c : TaxuClient) (url : String) (body : JsValue) :
    AxiosRequestConfig :=
  { url := url
    method := "post"
    data := some body
    params := none
    headers := c.headers
    baseURL := c.baseURL
    timeout := c.timeout }

/-- The request `this.client.get(url)` hands to axios. -/
def TaxuClient.getConfig (c : TaxuClient) (url : String) : AxiosRequestConfig :=
  { url := url
    method := "get"
    data := none
    params := none
    headers := c.headers
    baseURL := c.baseURL
    timeout := c.timeout }

/-- The shared `try { ... return response.data } catch { throw
this.handleError(error) }` shape of every public method: issue the config,
return the decoded body on fulfilment, reject with the normalized message on
rejection. -/
def runCall (net : Network) (cfg : AxiosRequestConfig) :
    Except String JsValue :=
  match settle (net cfg) with
  | .fulfilled resp => .ok resp.data
  | .rejected err => .error (TaxuClient.handleError err)

/-- `calculateTax(request)`: POST `/tax/calculate` with the request body. -/
def TaxuClient.calculateTax (c : TaxuClient) (net : Network)
    (request : TaxCalculationRequest) : Except String JsValue :=
  runCall net (c.postConfig "/tax/calculate" request.toJson)

/-- `getJurisdictions()`: GET `/jurisdictions`. -/
def TaxuClient.getJurisdictions (c : TaxuClient) (net : Network) :
    Except String JsValue :=
  runCall net (c.getConfig "/jurisdictions")

/-- `ping()`: GET `/ping`. -/
def TaxuClient.ping (c : TaxuClient) (net : Network) :
    Except String JsValue :=
  runCall net (c.getConfig "/ping")

/-- `request(endpoint, options)`: the generic escape hatch. -/
def TaxuClient.request (c : TaxuClient) (net : Network) (endpoint : String)
    (options : Option RequestOptions) : Except String JsValue :=
  runCall net (c.requestConfig endpoint options)

/-! ## Claims -/

/-- C1 (amended): for every failed call where the server responded, the
rejected message equals the decoded body's `message` field when that field
holds a truthy value (in particular any non-empty string), and otherwise
equals `"API Error: <status>"`; the classification depends only on the
response, never on the `request` flag or the underlying error message, so
this case takes precedence over the network-error and request-error
classifications. -/
theorem claim_C1_server_error_message (status : Nat) (body : JsValue)
    (rq : Bool) (m : String) :
    (∀ s, jsField body "message" = JsValue.str s → s ≠ "" →
      TaxuClient.handleError ⟨some ⟨status, body⟩, rq, m⟩ = s) ∧
    (truthy (jsField body "message") = false →
      TaxuClient.handleError ⟨some ⟨status, body⟩, rq, m⟩
        = "API Error: " ++ toString status) ∧
    (∀ rq2 m2,
      TaxuClient.handleError ⟨some ⟨status, body⟩, rq, m⟩
        = TaxuClient.handleError ⟨some ⟨status, body⟩, rq2, m2⟩) := by
  refine ⟨?_, ?_, ?_⟩
  · intro s hs hne
    simp [TaxuClient.handleError, hs, truthy, hne, jsToString]
  · intro hf
    simp [TaxuClient.handleError, hf]
  · intro rq2 m2
    simp [TaxuClient.handleError]

/-- C1 witness: a 400 response whose body carries `message:
"Invalid request parameters"` rejects with exactly that text. -/
theorem claim_C1_server_error_message_witness :
    TaxuClient.handleError
      ⟨some ⟨400, JsValue.obj [("message", JsValue.str "Invalid request parameters")]⟩,
        true, "Request failed with status code 400"⟩
      = "Invalid request parameters" :=
  (claim_C1_server_error_message 400
      (JsValue.obj [("message", JsValue.str "Invalid request parameters")])
      true "Request failed with status code 400").1
    "Invalid request parameters" rfl (by decide)

/-- C1 counterexample: a 400 response whose decoded body *contains* a
`message` field holding the empty string rejects with `"API Error: 400"`,
not with the field's value `""` — so the claim as stated (field used
whenever the body contains one) is false. -/
theorem claim_C1_counterexample :
    jsField (JsValue.obj [("message", JsValue.str "")]) "message"
        = JsValue.str "" ∧
    TaxuClient.handleError
      ⟨some ⟨400, JsValue.obj [("message", JsValue.str "")]⟩, true,
        "Request failed with status code 400"⟩
      = "API Error: 400" ∧
    "API Error: 400" ≠ "" := by
  refine ⟨rfl, rfl, by decide⟩

/-- C2: a failed call where the request went out but no response came back
(`error.request` set, no `error.response`) rejects with exactly
`"Network error: Unable to reach Taxu API"`; at the transport level, any
issued request whose raw outcome is `noResponse` produces exactly that
rejection. -/
theorem claim_C2_network_error (e : AxiosLikeError) (net : Network)
    (cfg : AxiosRequestConfig)
    (h1 : e.response = none) (h2 : e.request = true)
    (h3 : net cfg = RawOutcome.noResponse) :
    TaxuClient.handleError e = "Network error: Unable to reach Taxu API" ∧
    runCall net cfg = .error "Network error: Unable to reach Taxu API" := by
  constructor
  · simp [TaxuClient.handleError, h1, h2]
  · simp [runCall, h3, settle, TaxuClient.handleError]

/-- C2 witness: a ping against a dead network rejects with the fixed
network-error text. -/
theorem claim_C2_network_error_witness :
    TaxuClient.handleError ⟨none, true, "Network Error"⟩
        = "Network error: Unable to reach Taxu API" ∧
    runCall (fun _ => RawOutcome.noResponse)
        ((TaxuClient.create { apiKey := "k" }).getConfig "/ping")
      = .error "Network error: Unable to reach Taxu API" :=
  claim_C2_network_error ⟨none, true, "Network Error"⟩
    (fun _ => RawOutcome.noResponse)
    ((TaxuClient.create { apiKey := "k" }).getConfig "/ping")
    rfl rfl rfl

/-- C3: a failed call whose error carries neither a server response nor an
unanswered request (a failure raised before or outside any network attempt,
with underlying message X) rejects with exactly `"Request error: X"`; at
the transport level, a raw `setupFailure X` outcome produces exactly that
rejection. -/
theorem claim_C3_request_error (e : AxiosLikeError) (net : Network)
    (cfg : AxiosRequestConfig) (x : String)
    (h1 : e.response = none) (h2 : e.request = false)
    (h3 : net cfg = RawOutcome.setupFailure x) :
    TaxuClient.handleError e = "Request error: " ++ e.message ∧
    runCall net cfg = .error ("Request error: " ++ x) := by
  constructor
  · simp [TaxuClient.handleError, h1, h2]
  · simp [runCall, h3, settle, TaxuClient.handleError]

/-- C3 witness: a locally raised error with message `"boom"` rejects with
`"Request error: boom"`. -/
theorem claim_C3_request_error_witness :
    TaxuClient.handleError ⟨none, false, "boom"⟩ = "Request error: boom" ∧
    runCall (fun _ => RawOutcome.setupFailure "boom")
        ((TaxuClient.create { apiKey := "k" }).getConfig "/ping")
      = .error ("Request error: " ++ "boom") :=
  claim_C3_request_error ⟨none, false, "boom"⟩
    (fun _ => RawOutcome.setupFailure "boom")
    ((TaxuClient.create { apiKey := "k" }).getConfig "/ping")
    "boom" rfl rfl rfl

/-- C4: on any 2xx response, every public method returns the decoded body
verbatim — `calculateTax`, `getJurisdictions`, `ping` and `request` each
yield `.ok body` for whatever body the server sent, with no inspection of
the envelope's fields; in particular `getJurisdictions` preserves the
server-provided order of the jurisdiction list inside `data`. -/
theorem claim_C4_success_passthrough (c : TaxuClient) (net : Network)
    (r : TaxCalculationRequest) (endpoint : String)
    (options : Option RequestOptions) (status : Nat) (body : JsValue)
    (jurisdictions : List JsValue)
    (h1 : 200 ≤ status) (h2 : status < 300) :
    (net (c.postConfig "/tax/calculate" r.toJson) = RawOutcome.response status body →
      c.calculateTax net r = .ok body) ∧
    (net (c.getConfig "/jurisdictions") = RawOutcome.response status body →
      c.getJurisdictions net = .ok body) ∧
    (net (c.getConfig "/ping") = RawOutcome.response status body →
      c.ping net = .ok body) ∧
    (net (c.requestConfig endpoint options) = RawOutcome.response status body →
      c.request net endpoint options = .ok body) ∧
    (net (c.getConfig "/jurisdictions")
        = RawOutcome.response status
            (.obj [("data", .arr jurisdictions), ("success", .bool true)]) →
      c.getJurisdictions net
        = .ok (.obj [("data", .arr jurisdictions), ("success", .bool true)])) := by
  refine ⟨?_, ?_, ?_, ?_, ?_⟩ <;> intro h <;>
    simp [TaxuClient.calculateTax, TaxuClient.getJurisdictions,
      TaxuClient.ping, TaxuClient.request, runCall, h, settle, h1, h2]

/-- C4 witness: a 200 reply with body `{data: ["US","CA","GB"], success:
true}` is returned from `getJurisdictions` verbatim, order preserved. -/
theorem claim_C4_success_passthrough_witness :
    (TaxuClient.create { apiKey := "k" }).getJurisdictions
        (fun _ => RawOutcome.response 200
          (.obj [("data", .arr [.str "US", .str "CA", .str "GB"]),
                 ("success", .bool true)]))
      = .ok (.obj [("data", .arr [.str "US", .str "CA", .str "GB"]),
                 ("success", .bool true)]) :=
  (claim_C4_success_passthrough (TaxuClient.create { apiKey := "k" })
    (fun _ => RawOutcome.response 200
      (.obj [("data", .arr [.str "US", .str "CA", .str "GB"]),
             ("success", .bool true)]))
    { amount := 100, currency := "USD" } "/ping" none 200
    (.obj [("data", .arr [.str "US", .str "CA", .str "GB"]),
           ("success", .bool true)])
    [.str "US", .str "CA", .str "GB"]
    (by decide) (by decide)).2.1 rfl

/-- C5: `createTaxuClient` accepts either a bare API-key string or a full
config; a bare string (any string, the empty one included — construction is
a total function, so it never fails) yields a client with the default base
address and timeout, and a full config is passed to the constructor
unchanged. -/
theorem claim_C5_construction :
    (∀ s, createTaxuClient (.key s)
        = { apiKey := s, baseURL := "https://api.taxu.io/v1",
            timeout := 10000, headers := defaultHeaders s }) ∧
    (∀ cfg, createTaxuClient (.cfg cfg) = TaxuClient.create cfg) ∧
    createTaxuClient (.key "")
        = { apiKey := "", baseURL := "https://api.taxu.io/v1",
            timeout := 10000, headers := defaultHeaders "" } := by
  refine ⟨fun s => rfl, fun cfg => rfl, rfl⟩

/-- C6 counterexample: an explicitly supplied timeout of `0` and an
explicitly supplied empty-string base address are *not* used — the
constructor substitutes the defaults — so the claim that any supplied value
replaces the default exactly is false. -/
theorem claim_C6_counterexample :
    (TaxuClient.create { apiKey := "k", timeout := some 0 }).timeout = 10000 ∧
    (10000 : Int) ≠ 0 ∧
    (TaxuClient.create { apiKey := "k", baseURL := some "" }).baseURL
        = "https://api.taxu.io/v1" ∧
    "https://api.taxu.io/v1" ≠ "" := by
  refine ⟨rfl, by decide, rfl, by decide⟩

/-- C6 (amended): the base address defaults to `"https://api.taxu.io/v1"`
and the timeout to `10000` when omitted; an explicitly supplied *truthy*
value (a non-empty base address, a nonzero timeout) replaces the default
exactly, while a falsy supplied value (empty string, `0`) falls back to the
default. -/
theorem claim_C6_config_defaults (cfg : TaxuConfig) :
    (cfg.baseURL = none →
      (TaxuClient.create cfg).baseURL = "https://api.taxu.io/v1") ∧
    (∀ s, cfg.baseURL = some s → s ≠ "" →
      (TaxuClient.create cfg).baseURL = s) ∧
    (cfg.baseURL = some "" →
      (TaxuClient.create cfg).baseURL = "https://api.taxu.io/v1") ∧
    (cfg.timeout = none → (TaxuClient.create cfg).timeout = 10000) ∧
    (∀ t, cfg.timeout = some t → t ≠ 0 →
      (TaxuClient.create cfg).timeout = t) ∧
    (cfg.timeout = some 0 → (TaxuClient.create cfg).timeout = 10000) := by
  refine ⟨?_, ?_, ?_, ?_, ?_, ?_⟩
  · intro h; simp [TaxuClient.create, h]
  · intro s h hne; simp [TaxuClient.create, h, hne]
  · intro h; simp [TaxuClient.create, h]
  · intro h; simp [TaxuClient.create, h]
  · intro t h hne; simp [TaxuClient.create, h, hne]
  · intro h; simp [TaxuClient.create, h]

/-- C6 witness: explicit truthy overrides `baseURL = "https://example.com"`
and `timeout = 5000` are used verbatim. -/
theorem claim_C6_config_defaults_witness :
    (TaxuClient.create
        { apiKey := "k", baseURL := some "https://example.com",
          timeout := some 5000 }).baseURL = "https://example.com" ∧
    (TaxuClient.create
        { apiKey := "k", baseURL := some "https://example.com",
          timeout := some 5000 }).timeout = 5000 :=
  ⟨(claim_C6_config_defaults
      { apiKey := "k", baseURL := some "https://example.com",
        timeout := some 5000 }).2.1 "https://example.com" rfl (by decide),
   (claim_C6_config_defaults
      { apiKey := "k", baseURL := some "https://example.com",
        timeout := some 5000 }).2.2.2.2.1 5000 rfl (by decide)⟩

/-- C7: each named method is extensionally equal to a call of the generic
`request` method: for every client, network and request body,
`calculateTax r` behaves identically to
`request "/tax/calculate" {method: "POST", data: r}`, `getJurisdictions`
to `request "/jurisdictions"`, and `ping` to `request "/ping"` — and the
issued request configurations coincide exactly, so the same request is
sent and the same result or error comes back. -/
theorem claim_C7_wrappers_are_request (c : TaxuClient) (net : Network)
    (r : TaxCalculationRequest) :
    c.calculateTax net r
        = c.request net "/tax/calculate"
            (some { method := some "POST", data := some r.toJson }) ∧
    c.getJurisdictions net = c.request net "/jurisdictions" none ∧
    c.ping net = c.request net "/ping" none ∧
    c.postConfig "/tax/calculate" r.toJson
        = c.requestConfig "/tax/calculate"
            (some { method := some "POST", data := some r.toJson }) ∧
    c.getConfig "/jurisdictions" = c.requestConfig "/jurisdictions" none ∧
    c.getConfig "/ping" = c.requestConfig "/ping" none :=
  ⟨rfl, rfl, rfl, rfl, rfl, rfl⟩

/-- C8: construction installs exactly the bearer authorization header built
from the credential, the JSON content-type header and the fixed
client-identifier header as the transport defaults, and every request
issued by every public method — for every choice of per-call options, which
offer no header field at all — carries precisely these headers. -/
theorem claim_C8_default_headers (cfg : TaxuConfig) (endpoint url : String)
    (options : Option RequestOptions) (body : JsValue) :
    (TaxuClient.create cfg).headers = defaultHeaders cfg.apiKey ∧
    ((TaxuClient.create cfg).requestConfig endpoint options).headers
        = defaultHeaders cfg.apiKey ∧
    ((TaxuClient.create cfg).postConfig url body).headers
        = defaultHeaders cfg.apiKey ∧
    ((TaxuClient.create cfg).getConfig url).headers
        = defaultHeaders cfg.apiKey ∧
    defaultHeaders cfg.apiKey
        = [("Authorization", "Bearer " ++ cfg.apiKey),
           ("Content-Type", "application/json"),
           ("User-Agent", "taxu-js/0.1.0")] :=
  ⟨rfl, rfl, rfl, rfl, rfl⟩

/-- C9: an explicitly supplied falsy override — timeout `0` or empty-string
base address — is silently replaced by the default (`10000`,
`"https://api.taxu.io/v1"`), because the fallback tests truthiness rather
than absence. -/
theorem claim_C9_falsy_config_overrides (cfg : TaxuConfig) :
    (cfg.timeout = some 0 → (TaxuClient.create cfg).timeout = 10000) ∧
    (cfg.baseURL = some "" →
      (TaxuClient.create cfg).baseURL = "https://api.taxu.io/v1") := by
  constructor
  · intro h; simp [TaxuClient.create, h]
  · intro h; simp [TaxuClient.create, h]

/-- C9 witness: `{apiKey: "k", baseURL: "", timeout: 0}` yields the default
timeout and base address. -/
theorem claim_C9_falsy_config_overrides_witness :
    (TaxuClient.create
        { apiKey := "k", baseURL := some "", timeout := some 0 }).timeout
        = 10000 ∧
    (TaxuClient.create
        { apiKey := "k", baseURL := some "", timeout := some 0 }).baseURL
        = "https://api.taxu.io/v1" :=
  ⟨(claim_C9_falsy_config_overrides
      { apiKey := "k", baseURL := some "", timeout := some 0 }).1 rfl,
   (claim_C9_falsy_config_overrides
      { apiKey := "k", baseURL := some "", timeout := some 0 }).2 rfl⟩

/-- C10: a non-2xx error response whose body carries a `message` field with
a falsy value — the empty string, `null`, `0` or `false` — rejects with the
fallback `"API Error: <status>"` rather than that field's value, because
the server-message check tests truthiness rather than presence. -/
theorem claim_C10_falsy_server_message (status : Nat) (body : JsValue)
    (rq : Bool) (m : String)
    (h : jsField body "message" = JsValue.str "" ∨
         jsField body "message" = JsValue.null ∨
         jsField body "message" = JsValue.num 0 ∨
         jsField body "message" = JsValue.bool false) :
    TaxuClient.handleError ⟨some ⟨status, body⟩, rq, m⟩
      = "API Error: " ++ toString status := by
  rcases h with h | h | h | h <;> simp [TaxuClient.handleError, h, truthy]

/-- C10 witness: a 500 response with body `{message: ""}` rejects with
`"API Error: 500"`. -/
theorem claim_C10_falsy_server_message_witness :
    TaxuClient.handleError
      ⟨some ⟨500, JsValue.obj [("message", JsValue.str "")]⟩, true,
        "Request failed with status code 500"⟩
      = "API Error: " ++ toString 500 :=
  claim_C10_falsy_server_message 500
    (JsValue.obj [("message", JsValue.str "")]) true
    "Request failed with status code 500" (Or.inl rfl)
